import Mathlib

set_option maxRecDepth 4000
set_option linter.unusedVariables false

/-!
Shallow embedding of the CivicSense issue-lifecycle engine:
the SQLAlchemy models (`app/models.py`), the voting endpoints
(`app/routers/social.py`), the issue update endpoint
(`app/routers/issues.py`), the karma/badge service
(`app/services/karma.py`) and the routing/priority service
(`app/services/routing.py`).  Database tables are lists of records;
each endpoint/service method is a pure function threading the whole
database state.  Timestamps are abstract `Nat` instants supplied by the
caller (`datetime.utcnow()` becomes a `now` parameter).
-/

namespace CivicSense

/-- `UserRole` enum from `app/models.py`. -/
inductive UserRole
  | citizen
  | admin
  | department_staff
deriving DecidableEq, Repr

/-- `IssueStatus` enum from `app/models.py`. -/
inductive IssueStatus
  | submitted
  | acknowledged
  | in_progress
  | resolved
  | closed
  | rejected
deriving DecidableEq, Repr

/-- `IssuePriority` enum from `app/models.py`. -/
inductive IssuePriority
  | low
  | medium
  | high
  | urgent
deriving DecidableEq, Repr

/-- `IssueCategory` enum from `app/models.py`. -/
inductive IssueCategory
  | road_maintenance
  | streetlight
  | sanitation
  | water_supply
  | electricity
  | traffic
  | parks
  | other
deriving DecidableEq, Repr

/-- The two vote kinds accepted by the vote endpoints (`'upvote'`/`'confirm'`). -/
inductive VoteType
  | upvote
  | confirm
deriving DecidableEq, Repr

/-- `User` row: the columns the engine reads or writes.  `civic_karma` is a
signed integer (`award_karma` accepts arbitrary point values). -/
structure User where
  id : Nat
  role : UserRole
  is_active : Bool
  civic_karma : Int
deriving DecidableEq, Repr

/-- `Department` row: the columns routing reads. -/
structure Department where
  id : Nat
  name : String
deriving DecidableEq, Repr

/-- `Issue` row.  `latitude`/`longitude` are non-nullable floats in the model,
embedded as rationals; the tallies and the derived `urgency_score` only ever
hold non-negative integral values, embedded as `Nat`. -/
structure Issue where
  id : Nat
  category : IssueCategory
  status : IssueStatus
  priority : IssuePriority
  latitude : Rat
  longitude : Rat
  upvotes : Nat
  confirmations : Nat
  urgency_score : Nat
  reporter_id : Nat
  assigned_to_id : Option Nat
  department_id : Option Nat
  created_at : Nat
  acknowledged_at : Option Nat
  resolved_at : Option Nat
deriving DecidableEq, Repr

/-- `IssueVote` row. -/
structure IssueVote where
  issue_id : Nat
  user_id : Nat
  vote_type : VoteType
deriving DecidableEq, Repr

/-- `UserBadge` row: note the table stores the display `badge_name`
(e.g. "First Steps"), not the internal badge key (e.g. "first_report"). -/
structure UserBadge where
  user_id : Nat
  badge_name : String
  badge_description : String
deriving DecidableEq, Repr

/-- `IssueComment` row (only the columns the karma checks count). -/
structure IssueComment where
  issue_id : Nat
  user_id : Nat
deriving DecidableEq, Repr

/-- `IssueUpdate` audit row written by `update_issue`. -/
structure IssueUpdateRec where
  issue_id : Nat
  user_id : Nat
  status : IssueStatus
  comment : Option String
deriving DecidableEq, Repr

/-- `Notification` row (recipient and related issue; message text elided). -/
structure NotificationRec where
  user_id : Nat
  issue_id : Option Nat
deriving DecidableEq, Repr

/-- The whole store: one list per table. -/
structure Db where
  users : List User
  issues : List Issue
  votes : List IssueVote
  badges : List UserBadge
  comments : List IssueComment
  departments : List Department
  updates : List IssueUpdateRec
  notifications : List NotificationRec
deriving DecidableEq, Repr

/-- `db.query(Issue).filter(Issue.id == issue_id).first()`. -/
def findIssue (db : Db) (issue_id : Nat) : Option Issue :=
  db.issues.find? (fun i => i.id == issue_id)

/-- `db.query(User).filter(User.id == user_id).first()`. -/
def findUser (db : Db) (user_id : Nat) : Option User :=
  db.users.find? (fun u => u.id == user_id)

/-- Committing a mutation of the issue object returned by `first()`:
replace the first row with the given id. -/
def setIssue (issue_id : Nat) (newIssue : Issue) : List Issue → List Issue
  | [] => []
  | i :: is => if i.id == issue_id then newIssue :: is else i :: setIssue issue_id newIssue is

/-- Committing a mutation of the user object returned by `first()`. -/
def setUser (user_id : Nat) (newUser : User) : List User → List User
  | [] => []
  | u :: us => if u.id == user_id then newUser :: us else u :: setUser user_id newUser us

/-- The `user.issues` relationship. -/
def userIssues (db : Db) (uid : Nat) : List Issue :=
  db.issues.filter (fun i => i.reporter_id == uid)

/-- The `user.votes` relationship. -/
def userVotes (db : Db) (uid : Nat) : List IssueVote :=
  db.votes.filter (fun v => v.user_id == uid)

/-- The `user.comments` relationship. -/
def userComments (db : Db) (uid : Nat) : List IssueComment :=
  db.comments.filter (fun c => c.user_id == uid)

/-- The `user.badges` relationship. -/
def userBadges (db : Db) (uid : Nat) : List UserBadge :=
  db.badges.filter (fun b => b.user_id == uid)

/-! ## Karma service (`app/services/karma.py`) -/

/-- An entry of the `KarmaService.BADGES` dictionary. -/
structure BadgeInfo where
  name : String
  description : String
  points : Nat
deriving DecidableEq, Repr

/-- `KarmaService.BADGES`: badge key to display metadata. -/
def BADGES : List (String × BadgeInfo) :=
  [ ("first_report", ⟨"First Steps", "Reported your first issue", 10⟩),
    ("pothole_patriot", ⟨"Pothole Patriot", "Reported 5 road maintenance issues", 50⟩),
    ("streetlight_saver", ⟨"Streetlight Saver", "Reported 3 streetlight issues", 30⟩),
    ("clean_up_crew", ⟨"Clean-Up Crew", "Reported 5 sanitation issues", 50⟩),
    ("water_warrior", ⟨"Water Warrior", "Reported 3 water supply issues", 30⟩),
    ("power_protector", ⟨"Power Protector", "Reported 3 electricity issues", 30⟩),
    ("traffic_tracker", ⟨"Traffic Tracker", "Reported 3 traffic issues", 30⟩),
    ("park_patrol", ⟨"Park Patrol", "Reported 3 park issues", 30⟩),
    ("community_champion", ⟨"Community Champion", "Earned 500+ civic karma", 100⟩),
    ("issue_resolver", ⟨"Issue Resolver", "Had 10 issues resolved", 200⟩),
    ("voting_veteran", ⟨"Voting Veteran", "Voted on 50 issues", 100⟩),
    ("confirmation_king", ⟨"Confirmation King", "Confirmed 25 issues", 75⟩),
    ("social_butterfly", ⟨"Social Butterfly", "Commented on 20 issues", 50⟩) ]

/-- `KarmaService._check_first_report`. -/
def check_first_report (db : Db) (user : User) : Bool :=
  (userIssues db user.id).length ≥ 1

/-- `KarmaService._check_pothole_patriot`. -/
def check_pothole_patriot (db : Db) (user : User) : Bool :=
  ((userIssues db user.id).filter (fun i => i.category == .road_maintenance)).length ≥ 5

/-- `KarmaService._check_streetlight_saver`. -/
def check_streetlight_saver (db : Db) (user : User) : Bool :=
  ((userIssues db user.id).filter (fun i => i.category == .streetlight)).length ≥ 3

/-- `KarmaService._check_clean_up_crew`. -/
def check_clean_up_crew (db : Db) (user : User) : Bool :=
  ((userIssues db user.id).filter (fun i => i.category == .sanitation)).length ≥ 5

/-- `KarmaService._check_water_warrior`. -/
def check_water_warrior (db : Db) (user : User) : Bool :=
  ((userIssues db user.id).filter (fun i => i.category == .water_supply)).length ≥ 3

/-- `KarmaService._check_power_protector`. -/
def check_power_protector (db : Db) (user : User) : Bool :=
  ((userIssues db user.id).filter (fun i => i.category == .electricity)).length ≥ 3

/-- `KarmaService._check_traffic_tracker`. -/
def check_traffic_tracker (db : Db) (user : User) : Bool :=
  ((userIssues db user.id).filter (fun i => i.category == .traffic)).length ≥ 3

/-- `KarmaService._check_park_patrol`. -/
def check_park_patrol (db : Db) (user : User) : Bool :=
  ((userIssues db user.id).filter (fun i => i.category == .parks)).length ≥ 3

/-- `KarmaService._check_community_champion`. -/
def check_community_champion (_db : Db) (user : User) : Bool :=
  user.civic_karma ≥ 500

/-- `KarmaService._check_issue_resolver`. -/
def check_issue_resolver (db : Db) (user : User) : Bool :=
  ((userIssues db user.id).filter (fun i => i.status == .resolved)).length ≥ 10

/-- `KarmaService._check_voting_veteran`. -/
def check_voting_veteran (db : Db) (user : User) : Bool :=
  ((userVotes db user.id).filter (fun v => v.vote_type == .upvote)).length ≥ 50

/-- `KarmaService._check_confirmation_king`. -/
def check_confirmation_king (db : Db) (user : User) : Bool :=
  ((userVotes db user.id).filter (fun v => v.vote_type == .confirm)).length ≥ 25

/-- `KarmaService._check_social_butterfly`. -/
def check_social_butterfly (db : Db) (user : User) : Bool :=
  (userComments db user.id).length ≥ 20

/-- The `badges_to_check` list of `KarmaService.check_and_award_badges`:
badge key paired with its check function. -/
def badges_to_check : List (String × (Db → User → Bool)) :=
  [ ("first_report", check_first_report),
    ("pothole_patriot", check_pothole_patriot),
    ("streetlight_saver", check_streetlight_saver),
    ("clean_up_crew", check_clean_up_crew),
    ("water_warrior", check_water_warrior),
    ("power_protector", check_power_protector),
    ("traffic_tracker", check_traffic_tracker),
    ("park_patrol", check_park_patrol),
    ("community_champion", check_community_champion),
    ("issue_resolver", check_issue_resolver),
    ("voting_veteran", check_voting_veteran),
    ("confirmation_king", check_confirmation_king),
    ("social_butterfly", check_social_butterfly) ]

/-- `KarmaService._award_badge`: insert one `UserBadge` row and commit. -/
def award_badge (db : Db) (user_id : Nat) (badge_name badge_description : String) : Db :=
  { db with badges := db.badges ++ [⟨user_id, badge_name, badge_description⟩] }

/-- One iteration of the loop in `KarmaService.check_and_award_badges`:
award the badge when its key is not among the pre-computed existing badge
names and its check holds on the current state. -/
def badge_step (user_id : Nat) (existing_badges : List String) (user : User)
    (acc : Db × List String) (bc : String × (Db → User → Bool)) : Db × List String :=
  if !existing_badges.contains bc.1 && bc.2 acc.1 user then
    match BADGES.lookup bc.1 with
    | some info => (award_badge acc.1 user_id info.name info.description, acc.2 ++ [bc.1])
    | none => acc
  else acc

/-- `KarmaService.check_and_award_badges`: returns the mutated store and the
list of newly awarded badge keys.  `existing_badges` is computed once, up
front, from the `badge_name` column of the user's badge rows. -/
def check_and_award_badges (db : Db) (user_id : Nat) : Db × List String :=
  match findUser db user_id with
  | none => (db, [])
  | some user =>
    let existing_badges := (userBadges db user_id).map (fun b => b.badge_name)
    badges_to_check.foldl (badge_step user_id existing_badges user) (db, [])

/-- `KarmaService.award_karma`: add the points to the user's `civic_karma`,
then evaluate badges; returns `false` (after logging) when the user does not
exist, leaving the store untouched. -/
def award_karma (db : Db) (user_id : Nat) (points : Int) : Db × Bool :=
  match findUser db user_id with
  | none => (db, false)
  | some user =>
    let db1 := { db with users := setUser user_id { user with civic_karma := user.civic_karma + points } db.users }
    ((check_and_award_badges db1 user_id).1, true)

/-! ## Voting endpoints (`app/routers/social.py`) -/

/-- The failure modes of the vote endpoints.  `alreadyVoted` models the
HTTP 400 "Already voted on this issue", `voteNotFound` the 404 "Vote not
found", `issueNotFound` the 404 "Issue not found"; `internalError` models
the unhandled `AttributeError` `remove_vote` would hit if the vote's issue
row were missing. -/
inductive VoteError
  | issueNotFound
  | alreadyVoted
  | voteNotFound
  | internalError
deriving DecidableEq, Repr

/-- The vote-row filter used by both endpoints:
`(issue_id, user_id, vote_type)` equality. -/
def voteMatches (issue_id user_id : Nat) (vt : VoteType) (v : IssueVote) : Bool :=
  v.issue_id == issue_id && v.user_id == user_id && v.vote_type == vt

/-- The "Update issue counts" block of `vote_on_issue` (social.py lines
136-140): increment the matching tally. -/
def bump_tally (vt : VoteType) (issue : Issue) : Issue :=
  match vt with
  | .upvote => { issue with upvotes := issue.upvotes + 1 }
  | .confirm => { issue with confirmations := issue.confirmations + 1 }

/-- The bumped issue after the "Recalculate urgency score" line
(social.py line 143): `urgency_score = (upvotes * 2) + confirmations`. -/
def voted_issue (vt : VoteType) (issue : Issue) : Issue :=
  { bump_tally vt issue with
      urgency_score := (bump_tally vt issue).upvotes * 2 + (bump_tally vt issue).confirmations }

/-- `vote_on_issue` (`POST /social/issues/{issue_id}/vote`):
reject a missing issue, reject a duplicate `(issue, user, type)` vote,
otherwise insert the vote row, bump the matching tally, recompute
`urgency_score = upvotes*2 + confirmations`, commit, then award the voter
1 karma (the karma result is discarded).  Returns the new score. -/
def vote_on_issue (db : Db) (issue_id user_id : Nat) (vt : VoteType) :
    Db × Except VoteError Nat :=
  match findIssue db issue_id with
  | none => (db, .error .issueNotFound)
  | some issue =>
    if (db.votes.find? (voteMatches issue_id user_id vt)).isSome then
      (db, .error .alreadyVoted)
    else
      let issue2 := voted_issue vt issue
      let db2 := { db with votes := db.votes ++ [IssueVote.mk issue_id user_id vt],
                           issues := setIssue issue_id issue2 db.issues }
      let db3 := (award_karma db2 user_id 1).1
      (db3, .ok issue2.urgency_score)

/-- Deleting the vote object returned by `first()`: drop the first matching
row. -/
def removeFirstVote (p : IssueVote → Bool) : List IssueVote → List IssueVote
  | [] => []
  | v :: vs => if p v then vs else v :: removeFirstVote p vs

/-- The "Update issue counts" block of `remove_vote` (social.py lines
172-176): decrement the matching tally, floored at 0 via `max`. -/
def unbump_tally (vt : VoteType) (issue : Issue) : Issue :=
  match vt with
  | .upvote => { issue with upvotes := max 0 (issue.upvotes - 1) }
  | .confirm => { issue with confirmations := max 0 (issue.confirmations - 1) }

/-- The decremented issue after the "Recalculate urgency score" line
(social.py line 179). -/
def unvoted_issue (vt : VoteType) (issue : Issue) : Issue :=
  { unbump_tally vt issue with
      urgency_score := (unbump_tally vt issue).upvotes * 2 + (unbump_tally vt issue).confirmations }

/-- `remove_vote` (`DELETE /social/issues/{issue_id}/vote`):
reject a missing vote, otherwise decrement the matching tally (floored at
0 via `max`), recompute `urgency_score`, delete the vote row, commit.
No karma is touched. -/
def remove_vote (db : Db) (issue_id user_id : Nat) (vt : VoteType) :
    Db × Except VoteError Nat :=
  match db.votes.find? (voteMatches issue_id user_id vt) with
  | none => (db, .error .voteNotFound)
  | some _ =>
    match findIssue db issue_id with
    | none => (db, .error .internalError)
    | some issue =>
      let issue2 := unvoted_issue vt issue
      let db2 := { db with issues := setIssue issue_id issue2 db.issues,
                           votes := removeFirstVote (voteMatches issue_id user_id vt) db.votes }
      (db2, .ok issue2.urgency_score)

/-! ## Issue update endpoint (`app/routers/issues.py`) -/

/-- `IssueUpdateRequest` body: every field optional. -/
structure IssueUpdateRequest where
  status : Option IssueStatus
  priority : Option IssuePriority
  assigned_to_id : Option Nat
  comment : Option String
deriving DecidableEq, Repr

/-- The failure modes of `update_issue`: 404 and the citizen 403. -/
inductive UpdateError
  | issueNotFound
  | notAuthorized
deriving DecidableEq, Repr

/-- Python truthiness of the optional comment string: `None` and `""` are
falsy. -/
def truthyStr : Option String → Bool
  | some s => !(s == "")
  | none => false

/-- The status block of `update_issue` (issues.py lines 164-169): when a
status is supplied it is applied unconditionally; a first-time
ACKNOWLEDGED stamps `acknowledged_at`, else a first-time RESOLVED stamps
`resolved_at`. -/
def apply_status_update (now : Nat) (upd : IssueUpdateRequest) (issue : Issue) : Issue :=
  match upd.status with
  | some st =>
    let i := { issue with status := st }
    if st == .acknowledged && issue.acknowledged_at.isNone then
      { i with acknowledged_at := some now }
    else if st == .resolved && issue.resolved_at.isNone then
      { i with resolved_at := some now }
    else i
  | none => issue

/-- The priority block of `update_issue` (issues.py lines 171-172). -/
def apply_priority_update (upd : IssueUpdateRequest) (issue1 : Issue) : Issue :=
  match upd.priority with
  | some p => { issue1 with priority := p }
  | none => issue1

/-- The assignee block of `update_issue` (issues.py lines 174-175); an
assignee id of 0 is falsy in Python and hence ignored. -/
def apply_assignee_update (upd : IssueUpdateRequest) (issue2 : Issue) : Issue :=
  match upd.assigned_to_id with
  | some a => if a != 0 then { issue2 with assigned_to_id := some a } else issue2
  | none => issue2

/-- The whole field-update block of `update_issue` (issues.py lines
163-176): the three sequential blocks above. -/
def apply_issue_update (now : Nat) (upd : IssueUpdateRequest) (issue : Issue) : Issue :=
  apply_assignee_update upd (apply_priority_update upd (apply_status_update now upd issue))

/-- `update_issue` (`PUT /issues/{issue_id}`):
404 on a missing issue; 403 for citizens.  Applies
`apply_issue_update` to the issue's fields and commits.  When a (truthy)
comment or a status is supplied an `IssueUpdate` audit row plus a reporter
notification are written, and a RESOLVED status awards the reporter
50 karma (result discarded). -/
def update_issue (now : Nat) (db : Db) (issue_id : Nat) (actor : User)
    (upd : IssueUpdateRequest) : Db × Except UpdateError Issue :=
  match findIssue db issue_id with
  | none => (db, .error .issueNotFound)
  | some issue =>
    if actor.role == .citizen then (db, .error .notAuthorized)
    else
      let issue3 := apply_issue_update now upd issue
      let db1 := { db with issues := setIssue issue_id issue3 db.issues }
      if truthyStr upd.comment || upd.status.isSome then
        let db2 := { db1 with
          updates := db1.updates ++
            [IssueUpdateRec.mk issue_id actor.id (upd.status.getD issue3.status) upd.comment],
          notifications := db1.notifications ++ [NotificationRec.mk issue3.reporter_id (some issue_id)] }
        let db3 := if upd.status == some .resolved then
            (award_karma db2 issue3.reporter_id 50).1
          else db2
        (db3, .ok issue3)
      else (db1, .ok issue3)

/-! ## Routing service (`app/services/routing.py`) -/

/-- `IssueRoutingService.CATEGORY_DEPARTMENT_MAPPING` (total over the 8
categories). -/
def CATEGORY_DEPARTMENT_MAPPING : IssueCategory → String
  | .road_maintenance => "Public Works"
  | .streetlight => "Public Works"
  | .sanitation => "Sanitation Department"
  | .water_supply => "Water Department"
  | .electricity => "Electricity Department"
  | .traffic => "Traffic Department"
  | .parks => "Parks and Recreation"
  | .other => "General Administration"

/-- `IssueRoutingService.route_issue`: look the category up in the fixed
table, find the department row by name (`None` on failure), set
`issue.department_id` and commit.  Returns the department id. -/
def route_issue (db : Db) (issue_id : Nat) : Db × Option Nat :=
  match findIssue db issue_id with
  | none => (db, none)
  | some issue =>
    let department_name := CATEGORY_DEPARTMENT_MAPPING issue.category
    match db.departments.find? (fun d => d.name == department_name) with
    | none => (db, none)
    | some dept =>
      ({ db with issues := setIssue issue_id { issue with department_id := some dept.id } db.issues },
       some dept.id)

/-- `IssueRoutingService.get_available_staff`: filters users by
`role == DEPARTMENT_STAFF` and `is_active` only — the `department_id`
parameter is never used in the query. -/
def get_available_staff (db : Db) (department_id : Nat) : List User :=
  db.users.filter (fun u => u.role == .department_staff && u.is_active)

/-- Python truthiness of the optional department id column: `None` and `0`
are falsy. -/
def truthyOptNat : Option Nat → Bool
  | some n => n != 0
  | none => false

/-- `IssueRoutingService.auto_assign_issue`: route first when the issue has
no (truthy) department, give up if routing fails, then take the first user
of `get_available_staff`, set `assigned_to_id`, set the status to
acknowledged and commit.  Returns the assigned staff id, `none` on any
failure. -/
def auto_assign_issue (db : Db) (issue_id : Nat) : Db × Option Nat :=
  match findIssue db issue_id with
  | none => (db, none)
  | some issue =>
    let routed : Db × Bool :=
      if truthyOptNat issue.department_id then (db, true)
      else match route_issue db issue_id with
        | (db', some _) => (db', true)
        | (db', none) => (db', false)
    if !routed.2 then (routed.1, none)
    else
      match findIssue routed.1 issue_id with
      | none => (routed.1, none)
      | some issue1 =>
        let available_staff := get_available_staff routed.1 (issue1.department_id.getD 0)
        match available_staff with
        | [] => (routed.1, none)
        | assigned_staff :: _ =>
          let issue2 := { issue1 with assigned_to_id := some assigned_staff.id,
                                      status := .acknowledged }
          ({ routed.1 with issues := setIssue issue_id issue2 routed.1.issues },
           some assigned_staff.id)

/-- The `priority_scores` base table inside
`IssueRoutingService.calculate_priority_score`. -/
def priority_scores : IssuePriority → Nat
  | .urgent => 10
  | .high => 7
  | .medium => 4
  | .low => 1

/-- The `critical_categories` list inside `calculate_priority_score`. -/
def critical_categories : List IssueCategory :=
  [.water_supply, .electricity, .road_maintenance]

/-- `IssueRoutingService.calculate_priority_score`: priority base, +3 for a
critical category, +1 when `issue.latitude and issue.longitude` is truthy,
i.e. when both coordinates are nonzero (the columns are non-nullable). -/
def calculate_priority_score (issue : Issue) : Nat :=
  let score := priority_scores issue.priority
  let score := if critical_categories.contains issue.category then score + 3 else score
  let score := if issue.latitude ≠ 0 ∧ issue.longitude ≠ 0 then score + 1 else score
  score

/-- Stable insertion step: `x` goes after every `y` that strictly precedes
it under `before`, and before everything else. -/
def insertSorted (before : Issue → Issue → Bool) (x : Issue) : List Issue → List Issue
  | [] => [x]
  | y :: ys => if before y x then y :: insertSorted before x ys else x :: y :: ys

/-- Stable sort by a strict precedence relation; with
`before y x := key y > key x` this is exactly Python's
`sorted(key=key, reverse=True)` (stable, descending). -/
def sortIssues (before : Issue → Issue → Bool) : List Issue → List Issue
  | [] => []
  | x :: xs => insertSorted before x (sortIssues before xs)

/-- The filter part of `IssueRoutingService.get_priority_queue`:
issues with submitted/acknowledged status, restricted to a department when
the argument is truthy. -/
def priority_queue_candidates (db : Db) (department_id : Option Nat) : List Issue :=
  let issues := db.issues.filter (fun i => i.status == .submitted || i.status == .acknowledged)
  if truthyOptNat department_id then
    issues.filter (fun i => i.department_id == department_id)
  else issues

/-- `IssueRoutingService.get_priority_queue`: the candidates sorted by
`calculate_priority_score` descending (`sorted(..., reverse=True)`,
stable — no secondary key). -/
def get_priority_queue (db : Db) (department_id : Option Nat) : List Issue :=
  sortIssues (fun y x => calculate_priority_score y > calculate_priority_score x)
    (priority_queue_candidates db department_id)

/-! ## Spec-side comparison definitions (for the refinement parts of the
priority-queue claim) -/

/-- Written from the spec's words, for comparison with
`calculate_priority_score`: priority-tier base plus 3 for a critical
category plus 1 when coordinates are present — and the latitude/longitude
columns are non-nullable, so coordinates are always present. -/
def spec_priority_score (issue : Issue) : Nat :=
  priority_scores issue.priority
    + (if critical_categories.contains issue.category then 3 else 0) + 1

/-- Written from the spec's words: the claimed queue order
`(priority_score desc, urgency_score desc, created_at asc)`, as a strict
precedence relation. -/
def spec_queue_before (a b : Issue) : Bool :=
  calculate_priority_score a > calculate_priority_score b ||
  (calculate_priority_score a == calculate_priority_score b &&
    (a.urgency_score > b.urgency_score ||
     (a.urgency_score == b.urgency_score && a.created_at < b.created_at)))

/-- Written from the spec's words: the staff work queue the claim
describes — the same candidates ordered by `spec_queue_before`. -/
def spec_priority_queue (db : Db) (department_id : Option Nat) : List Issue :=
  sortIssues spec_queue_before (priority_queue_candidates db department_id)

/-! ## Reachable stores under the issue-update endpoint -/

/-- Database states reachable by any sequence of `update_issue` calls
(by any actor, at any instant) from a store whose issues are all fresh:
submitted, with no lifecycle timestamps. -/
inductive ReachableDb : Db → Prop
  | init (db : Db)
      (h : ∀ i ∈ db.issues, i.status = IssueStatus.submitted ∧
             i.acknowledged_at = none ∧ i.resolved_at = none) :
      ReachableDb db
  | step (db : Db) (issue_id : Nat) (actor : User) (upd : IssueUpdateRequest) (now : Nat)
      (hdb : ReachableDb db) :
      ReachableDb (update_issue now db issue_id actor upd).1

/-! ## Concrete stores used by counterexamples and witnesses -/

/-- An admin actor shared by the concrete scenarios. -/
def adminUser : User := ⟨50, .admin, true, 0⟩

/-- A user who already reported one issue and already holds the
"First Steps" badge record. -/
def c1_user : User := ⟨1, .citizen, true, 10⟩

/-- The single issue reported by `c1_user`. -/
def c1_issue : Issue := ⟨1, .other, .submitted, .medium, 1, 1, 0, 0, 0, 1, none, none, 0, none, none⟩

/-- Store for the badge-idempotence scenario: user 1 has one issue and an
existing "First Steps" badge row. -/
def c1_db : Db :=
  ⟨[c1_user], [c1_issue], [], [⟨1, "First Steps", "Reported your first issue"⟩], [], [], [], []⟩

/-- A citizen voter for the voting scenarios. -/
def w2_user : User := ⟨7, .citizen, true, 0⟩

/-- A fresh issue (consistent zero tallies) for the voting scenarios. -/
def w2_issue0 : Issue := ⟨1, .other, .submitted, .medium, 1, 1, 0, 0, 0, 7, none, none, 0, none, none⟩

/-- Store for the voting scenarios. -/
def w2_db : Db := ⟨[w2_user], [w2_issue0], [], [], [], [], [], []⟩

/-- The store after user 7 upvotes issue 1. -/
def w2_db1 : Db := (vote_on_issue w2_db 1 7 .upvote).1

/-- The issue row after the upvote: one upvote, urgency 2. -/
def w2_issue1 : Issue := ⟨1, .other, .submitted, .medium, 1, 1, 1, 0, 2, 7, none, none, 0, none, none⟩

/-- The store after user 7 removes the upvote again. -/
def w2_db2 : Db := (remove_vote w2_db1 1 7 .upvote).1

/-- A fresh issue whose reporter (99) has no user row, so karma
side-effects are no-ops in this scenario. -/
def c3_issue0 : Issue := ⟨1, .other, .submitted, .medium, 1, 1, 0, 0, 0, 99, none, none, 0, none, none⟩

/-- Initial store for the status-lifecycle scenarios. -/
def c3_db0 : Db := ⟨[], [c3_issue0], [], [], [], [], [], []⟩

/-- Store after an admin sets the status to resolved at instant 3. -/
def c3_db1 : Db := (update_issue 3 c3_db0 1 adminUser ⟨some .resolved, none, none, none⟩).1

/-- Store after the admin then sets the status to in_progress at instant 5. -/
def c3_db2 : Db := (update_issue 5 c3_db1 1 adminUser ⟨some .in_progress, none, none, none⟩).1

/-- The issue row in `c3_db2`: back in progress but with `resolved_at`
still stamped. -/
def c3_issue2 : Issue := ⟨1, .other, .in_progress, .medium, 1, 1, 0, 0, 0, 99, none, none, 0, none, some 3⟩

/-- Store after an admin moves the fresh issue straight to in_progress at
instant 3. -/
def c4_db1 : Db := (update_issue 3 c3_db0 1 adminUser ⟨some .in_progress, none, none, none⟩).1

/-- The issue row in `c4_db1`: in progress, `acknowledged_at` never stamped. -/
def c4_issue1 : Issue := ⟨1, .other, .in_progress, .medium, 1, 1, 0, 0, 0, 99, none, none, 0, none, none⟩

/-- The issue row in `c3_db1`: resolved with `resolved_at` stamped at 3
(and `acknowledged_at` never stamped). -/
def c3_issue1 : Issue := ⟨1, .other, .resolved, .medium, 1, 1, 0, 0, 0, 99, none, none, 0, none, some 3⟩

/-- Store after an admin sets the fresh issue to acknowledged at instant 4. -/
def c4_ack_db : Db := (update_issue 4 c3_db0 1 adminUser ⟨some .acknowledged, none, none, none⟩).1

/-- The issue row in `c4_ack_db`: acknowledged with `acknowledged_at`
stamped at 4. -/
def c4_ack_issue : Issue := ⟨1, .other, .acknowledged, .medium, 1, 1, 0, 0, 0, 99, none, none, 0, some 4, none⟩

/-- Reporter of the double-resolution scenario, karma 0. -/
def c6_reporter : User := ⟨2, .citizen, true, 0⟩

/-- Issue reported by user 2 for the double-resolution scenario. -/
def c6_issue0 : Issue := ⟨1, .other, .submitted, .medium, 1, 1, 0, 0, 0, 2, none, none, 0, none, none⟩

/-- Initial store for the double-resolution scenario. -/
def c6_db0 : Db := ⟨[c6_reporter], [c6_issue0], [], [], [], [], [], []⟩

/-- Store after the first RESOLVED update. -/
def c6_db1 : Db := (update_issue 3 c6_db0 1 adminUser ⟨some .resolved, none, none, none⟩).1

/-- Store after a second RESOLVED update on the already-resolved issue. -/
def c6_db2 : Db := (update_issue 5 c6_db1 1 adminUser ⟨some .resolved, none, none, none⟩).1

/-- The reporter's user row after the first RESOLVED update: karma 50. -/
def c6_user1 : User := ⟨2, .citizen, true, 50⟩

/-- The reporter's user row after the second RESOLVED update: karma 100. -/
def c6_user2 : User := ⟨2, .citizen, true, 100⟩

/-- The only active staff user in the assignment scenario. -/
def c7_staff : User := ⟨5, .department_staff, true, 0⟩

/-- A water-supply issue, not yet routed. -/
def c7_issue0 : Issue := ⟨1, .water_supply, .submitted, .medium, 1, 1, 0, 0, 0, 9, none, none, 0, none, none⟩

/-- Store with two provisioned departments and one active staff user. -/
def c7_db : Db :=
  ⟨[c7_staff], [c7_issue0], [], [], [], [⟨1, "Water Department"⟩, ⟨2, "Electricity Department"⟩], [], []⟩

/-- The issue row after `auto_assign_issue`: routed to department 1,
assigned to staff 5, status acknowledged. -/
def c7_issue1 : Issue := ⟨1, .water_supply, .acknowledged, .medium, 1, 1, 0, 0, 0, 9, some 5, some 1, 0, none, none⟩

/-- A low/noncritical issue with nonzero coordinates, urgency 0, created
first. -/
def c8_issueA : Issue := ⟨1, .other, .submitted, .low, 1, 1, 0, 0, 0, 1, none, none, 0, none, none⟩

/-- A low/noncritical issue with nonzero coordinates, urgency 5, created
later: same priority score as `c8_issueA`. -/
def c8_issueB : Issue := ⟨2, .other, .submitted, .low, 1, 1, 2, 1, 5, 1, none, none, 10, none, none⟩

/-- A low/noncritical issue sitting on the equator (latitude 0): its
coordinates are present but `latitude` is falsy in Python. -/
def c8_zero_lat_issue : Issue := ⟨3, .other, .submitted, .low, 0, 5, 0, 0, 0, 1, none, none, 0, none, none⟩

/-- Store for the priority-queue scenario. -/
def c8_db : Db := ⟨[], [c8_issueA, c8_issueB], [], [], [], [], [], []⟩

/-- The store of the karma-failure scenario: issue 1 exists but the voting
user 7 has no user row. -/
def c9_db : Db := ⟨[], [c3_issue0], [], [], [], [], [], []⟩

/-- The store after user 7 upvotes issue 1 in `c9_db`. -/
def c9_db_after : Db := (vote_on_issue c9_db 1 7 .upvote).1

/-! ## Helper lemmas -/

theorem find?_append_of_none {α : Type} (p : α → Bool) (l1 l2 : List α)
    (h : l1.find? p = none) : (l1 ++ l2).find? p = l2.find? p := by
  induction l1 with
  | nil => rfl
  | cons a l ih =>
    cases hpa : p a with
    | true => simp [List.find?_cons, hpa] at h
    | false =>
      simp only [List.find?_cons, hpa] at h
      simpa [List.find?_cons, hpa] using ih h

theorem findIssue_some_id {db : Db} {issue_id : Nat} {issue : Issue}
    (h : findIssue db issue_id = some issue) : issue.id = issue_id := by
  have := List.find?_some h
  simpa using this

theorem findIssue_mem {db : Db} {issue_id : Nat} {issue : Issue}
    (h : findIssue db issue_id = some issue) : issue ∈ db.issues :=
  List.mem_of_find?_eq_some h

theorem findUser_some_id {db : Db} {user_id : Nat} {user : User}
    (h : findUser db user_id = some user) : user.id = user_id := by
  have := List.find?_some h
  simpa using this

theorem find_setIssue (issue_id : Nat) (newIssue : Issue) (l : List Issue)
    (h : newIssue.id = issue_id) :
    (setIssue issue_id newIssue l).find? (fun i => i.id == issue_id) =
      (l.find? (fun i => i.id == issue_id)).map (fun _ => newIssue) := by
  induction l with
  | nil => rfl
  | cons i is ih =>
    by_cases hid : i.id = issue_id
    · simp [setIssue, List.find?_cons, hid, h]
    · simp only [setIssue, beq_iff_eq, hid, if_false]
      simpa [List.find?_cons, hid] using ih

theorem mem_setIssue {i' : Issue} {issue_id : Nat} {newIssue : Issue} {l : List Issue}
    (h : i' ∈ setIssue issue_id newIssue l) : i' = newIssue ∨ i' ∈ l := by
  induction l with
  | nil => simp [setIssue] at h
  | cons i is ih =>
    simp only [setIssue] at h
    by_cases hid : i.id = issue_id
    · simp only [beq_iff_eq, hid, if_true, List.mem_cons] at h
      rcases h with h | h
      · exact Or.inl h
      · exact Or.inr (List.mem_cons_of_mem _ h)
    · simp only [beq_iff_eq, hid, if_false, List.mem_cons] at h
      rcases h with h | h
      · exact Or.inr (by simp [h])
      · rcases ih h with h' | h'
        · exact Or.inl h'
        · exact Or.inr (List.mem_cons_of_mem _ h')

theorem setIssue_find_self (issue_id : Nat) (issue : Issue) (l : List Issue)
    (h : l.find? (fun i => i.id == issue_id) = some issue) :
    setIssue issue_id issue l = l := by
  induction l with
  | nil => simp [List.find?] at h
  | cons i is ih =>
    by_cases hid : i.id = issue_id
    · have heq : i = issue := by simpa [List.find?_cons, hid] using h
      subst heq
      simp [setIssue, hid]
    · have h' : is.find? (fun i => i.id == issue_id) = some issue := by
        simpa [List.find?_cons, hid] using h
      simp [setIssue, hid, ih h']

theorem setIssue_self {db : Db} {issue_id : Nat} {issue : Issue}
    (h : findIssue db issue_id = some issue) :
    setIssue issue_id issue db.issues = db.issues :=
  setIssue_find_self issue_id issue db.issues h

theorem setIssue_setIssue (issue_id : Nat) (a b : Issue) (l : List Issue)
    (ha : a.id = issue_id) :
    setIssue issue_id b (setIssue issue_id a l) = setIssue issue_id b l := by
  induction l with
  | nil => rfl
  | cons i is ih =>
    by_cases hid : i.id = issue_id
    · simp [setIssue, hid, ha]
    · simp [setIssue, hid, ih]

theorem find_setUser (user_id : Nat) (newUser : User) (l : List User)
    (h : newUser.id = user_id) :
    (setUser user_id newUser l).find? (fun u => u.id == user_id) =
      (l.find? (fun u => u.id == user_id)).map (fun _ => newUser) := by
  induction l with
  | nil => rfl
  | cons u us ih =>
    by_cases hid : u.id = user_id
    · simp [setUser, List.find?_cons, hid, h]
    · simp only [setUser, beq_iff_eq, hid, if_false]
      simpa [List.find?_cons, hid] using ih

theorem removeFirstVote_append_of_none (p : IssueVote → Bool) (l1 l2 : List IssueVote)
    (h : l1.find? p = none) :
    removeFirstVote p (l1 ++ l2) = l1 ++ removeFirstVote p l2 := by
  induction l1 with
  | nil => rfl
  | cons v vs ih =>
    cases hpv : p v with
    | true => simp [List.find?_cons, hpv] at h
    | false =>
      simp only [List.find?_cons, hpv] at h
      simp [removeFirstVote, hpv, ih h]

/-- The badge-awarding step touches only the badges table and the list of
newly awarded keys. -/
theorem badge_step_proj (user_id : Nat) (ex : List String) (user : User)
    (acc : Db × List String) (bc : String × (Db → User → Bool)) :
    (badge_step user_id ex user acc bc).1.users = acc.1.users ∧
    (badge_step user_id ex user acc bc).1.issues = acc.1.issues ∧
    (badge_step user_id ex user acc bc).1.votes = acc.1.votes ∧
    (badge_step user_id ex user acc bc).1.comments = acc.1.comments ∧
    (badge_step user_id ex user acc bc).1.departments = acc.1.departments ∧
    (badge_step user_id ex user acc bc).1.updates = acc.1.updates ∧
    (badge_step user_id ex user acc bc).1.notifications = acc.1.notifications := by
  unfold badge_step
  split
  · split <;> exact ⟨rfl, rfl, rfl, rfl, rfl, rfl, rfl⟩
  · exact ⟨rfl, rfl, rfl, rfl, rfl, rfl, rfl⟩

/-- The badge-evaluation fold touches only the badges table. -/
theorem badge_foldl_proj (user_id : Nat) (ex : List String) (user : User)
    (l : List (String × (Db → User → Bool))) (acc : Db × List String) :
    (l.foldl (badge_step user_id ex user) acc).1.users = acc.1.users ∧
    (l.foldl (badge_step user_id ex user) acc).1.issues = acc.1.issues ∧
    (l.foldl (badge_step user_id ex user) acc).1.votes = acc.1.votes ∧
    (l.foldl (badge_step user_id ex user) acc).1.comments = acc.1.comments ∧
    (l.foldl (badge_step user_id ex user) acc).1.departments = acc.1.departments ∧
    (l.foldl (badge_step user_id ex user) acc).1.updates = acc.1.updates ∧
    (l.foldl (badge_step user_id ex user) acc).1.notifications = acc.1.notifications := by
  induction l generalizing acc with
  | nil => exact ⟨rfl, rfl, rfl, rfl, rfl, rfl, rfl⟩
  | cons b rest ih =>
    rw [List.foldl_cons]
    obtain ⟨h1, h2, h3, h4, h5, h6, h7⟩ := ih (badge_step user_id ex user acc b)
    obtain ⟨g1, g2, g3, g4, g5, g6, g7⟩ := badge_step_proj user_id ex user acc b
    exact ⟨h1.trans g1, h2.trans g2, h3.trans g3, h4.trans g4,
           h5.trans g5, h6.trans g6, h7.trans g7⟩

/-- Badge evaluation touches only the badges table. -/
theorem check_and_award_badges_proj (db : Db) (user_id : Nat) :
    (check_and_award_badges db user_id).1.users = db.users ∧
    (check_and_award_badges db user_id).1.issues = db.issues ∧
    (check_and_award_badges db user_id).1.votes = db.votes ∧
    (check_and_award_badges db user_id).1.comments = db.comments ∧
    (check_and_award_badges db user_id).1.departments = db.departments ∧
    (check_and_award_badges db user_id).1.updates = db.updates ∧
    (check_and_award_badges db user_id).1.notifications = db.notifications := by
  unfold check_and_award_badges
  cases findUser db user_id with
  | none => exact ⟨rfl, rfl, rfl, rfl, rfl, rfl, rfl⟩
  | some user => exact badge_foldl_proj user_id _ user badges_to_check (db, [])

/-- `award_karma` for a missing user is a logged no-op reporting `false`. -/
theorem award_karma_none {db : Db} {user_id : Nat} {points : Int}
    (h : findUser db user_id = none) :
    award_karma db user_id points = (db, false) := by
  unfold award_karma
  rw [h]

/-- `award_karma` for an existing user: bump that user's karma, leave
every table but users and badges alone, report `true`. -/
theorem award_karma_some_proj {db : Db} {user_id : Nat} {points : Int} {user : User}
    (h : findUser db user_id = some user) :
    (award_karma db user_id points).1.users =
      setUser user_id { user with civic_karma := user.civic_karma + points } db.users ∧
    (award_karma db user_id points).1.issues = db.issues ∧
    (award_karma db user_id points).1.votes = db.votes ∧
    (award_karma db user_id points).1.comments = db.comments ∧
    (award_karma db user_id points).1.departments = db.departments ∧
    (award_karma db user_id points).1.updates = db.updates ∧
    (award_karma db user_id points).1.notifications = db.notifications ∧
    (award_karma db user_id points).2 = true := by
  unfold award_karma
  rw [h]
  obtain ⟨h1, h2, h3, h4, h5, h6, h7⟩ := check_and_award_badges_proj
    { db with users := setUser user_id { user with civic_karma := user.civic_karma + points } db.users }
    user_id
  exact ⟨h1, h2, h3, h4, h5, h6, h7, rfl⟩

/-- `award_karma` never touches the issues, votes, comments, departments,
updates or notifications tables, whether or not the user exists. -/
theorem award_karma_proj (db : Db) (user_id : Nat) (points : Int) :
    (award_karma db user_id points).1.issues = db.issues ∧
    (award_karma db user_id points).1.votes = db.votes ∧
    (award_karma db user_id points).1.comments = db.comments ∧
    (award_karma db user_id points).1.departments = db.departments ∧
    (award_karma db user_id points).1.updates = db.updates ∧
    (award_karma db user_id points).1.notifications = db.notifications := by
  cases h : findUser db user_id with
  | none => rw [award_karma_none h]; exact ⟨rfl, rfl, rfl, rfl, rfl, rfl⟩
  | some user =>
    obtain ⟨_, h2, h3, h4, h5, h6, h7, _⟩ := @award_karma_some_proj db user_id points user h
    exact ⟨h2, h3, h4, h5, h6, h7⟩

/-- The priority block touches only the priority field. -/
theorem apply_priority_update_proj (upd : IssueUpdateRequest) (x : Issue) :
    (apply_priority_update upd x).id = x.id ∧
    (apply_priority_update upd x).status = x.status ∧
    (apply_priority_update upd x).reporter_id = x.reporter_id ∧
    (apply_priority_update upd x).acknowledged_at = x.acknowledged_at ∧
    (apply_priority_update upd x).resolved_at = x.resolved_at := by
  unfold apply_priority_update
  cases upd.priority <;> exact ⟨rfl, rfl, rfl, rfl, rfl⟩

/-- The assignee block touches only the assignee field. -/
theorem apply_assignee_update_proj (upd : IssueUpdateRequest) (x : Issue) :
    (apply_assignee_update upd x).id = x.id ∧
    (apply_assignee_update upd x).status = x.status ∧
    (apply_assignee_update upd x).reporter_id = x.reporter_id ∧
    (apply_assignee_update upd x).acknowledged_at = x.acknowledged_at ∧
    (apply_assignee_update upd x).resolved_at = x.resolved_at := by
  unfold apply_assignee_update
  cases upd.assigned_to_id with
  | none => exact ⟨rfl, rfl, rfl, rfl, rfl⟩
  | some a => dsimp only; split_ifs <;> exact ⟨rfl, rfl, rfl, rfl, rfl⟩

/-- The status block never changes the row id or reporter. -/
theorem apply_status_update_frame (now : Nat) (upd : IssueUpdateRequest) (issue : Issue) :
    (apply_status_update now upd issue).id = issue.id ∧
    (apply_status_update now upd issue).reporter_id = issue.reporter_id := by
  unfold apply_status_update
  cases upd.status with
  | none => exact ⟨rfl, rfl⟩
  | some st => dsimp only; split_ifs <;> exact ⟨rfl, rfl⟩

/-- The status after the status block is the requested one when given,
the old one otherwise. -/
theorem apply_status_update_status (now : Nat) (upd : IssueUpdateRequest) (issue : Issue) :
    (apply_status_update now upd issue).status = upd.status.getD issue.status := by
  unfold apply_status_update
  cases upd.status with
  | none => rfl
  | some st => dsimp only [Option.getD]; split_ifs <;> rfl

/-- `acknowledged_at` after the status block: stamped exactly when the
requested status is ACKNOWLEDGED and the field was unset. -/
theorem apply_status_update_acknowledged_at (now : Nat) (upd : IssueUpdateRequest)
    (issue : Issue) :
    (apply_status_update now upd issue).acknowledged_at =
      if upd.status = some IssueStatus.acknowledged ∧ issue.acknowledged_at = none
      then some now else issue.acknowledged_at := by
  unfold apply_status_update
  cases hst : upd.status with
  | none => simp
  | some st =>
    cases hack : issue.acknowledged_at <;> cases st <;>
      dsimp only [Option.isNone] <;> split_ifs <;> simp_all

/-- `resolved_at` after the status block: stamped exactly when the
requested status is RESOLVED and the field was unset. -/
theorem apply_status_update_resolved_at (now : Nat) (upd : IssueUpdateRequest)
    (issue : Issue) :
    (apply_status_update now upd issue).resolved_at =
      if upd.status = some IssueStatus.resolved ∧ issue.resolved_at = none
      then some now else issue.resolved_at := by
  unfold apply_status_update
  cases hst : upd.status with
  | none => simp
  | some st =>
    cases hres : issue.resolved_at <;> cases st <;>
      dsimp only [Option.isNone] <;> split_ifs <;> simp_all

/-- `apply_issue_update` never changes the row id. -/
theorem apply_issue_update_id (now : Nat) (upd : IssueUpdateRequest) (issue : Issue) :
    (apply_issue_update now upd issue).id = issue.id := by
  unfold apply_issue_update
  rw [(apply_assignee_update_proj upd _).1, (apply_priority_update_proj upd _).1,
      (apply_status_update_frame now upd issue).1]

/-- `apply_issue_update` never changes the reporter. -/
theorem apply_issue_update_reporter_id (now : Nat) (upd : IssueUpdateRequest) (issue : Issue) :
    (apply_issue_update now upd issue).reporter_id = issue.reporter_id := by
  unfold apply_issue_update
  rw [(apply_assignee_update_proj upd _).2.2.1, (apply_priority_update_proj upd _).2.2.1,
      (apply_status_update_frame now upd issue).2]

/-- The status after `apply_issue_update` is the requested one when
given, the old one otherwise. -/
theorem apply_issue_update_status (now : Nat) (upd : IssueUpdateRequest) (issue : Issue) :
    (apply_issue_update now upd issue).status = upd.status.getD issue.status := by
  unfold apply_issue_update
  rw [(apply_assignee_update_proj upd _).2.1, (apply_priority_update_proj upd _).2.1,
      apply_status_update_status]

/-- `acknowledged_at` after `apply_issue_update`: stamped exactly when the
requested status is ACKNOWLEDGED and the field was unset. -/
theorem apply_issue_update_acknowledged_at (now : Nat) (upd : IssueUpdateRequest)
    (issue : Issue) :
    (apply_issue_update now upd issue).acknowledged_at =
      if upd.status = some IssueStatus.acknowledged ∧ issue.acknowledged_at = none
      then some now else issue.acknowledged_at := by
  unfold apply_issue_update
  rw [(apply_assignee_update_proj upd _).2.2.2.1, (apply_priority_update_proj upd _).2.2.2.1,
      apply_status_update_acknowledged_at]

/-- `resolved_at` after `apply_issue_update`: stamped exactly when the
requested status is RESOLVED and the field was unset. -/
theorem apply_issue_update_resolved_at (now : Nat) (upd : IssueUpdateRequest)
    (issue : Issue) :
    (apply_issue_update now upd issue).resolved_at =
      if upd.status = some IssueStatus.resolved ∧ issue.resolved_at = none
      then some now else issue.resolved_at := by
  unfold apply_issue_update
  rw [(apply_assignee_update_proj upd _).2.2.2.2, (apply_priority_update_proj upd _).2.2.2.2,
      apply_status_update_resolved_at]

/-- `update_issue` on a missing issue is a 404 no-op. -/
theorem update_issue_not_found {now : Nat} {db : Db} {issue_id : Nat} {actor : User}
    {upd : IssueUpdateRequest} (hIss : findIssue db issue_id = none) :
    update_issue now db issue_id actor upd = (db, Except.error UpdateError.issueNotFound) := by
  unfold update_issue
  rw [hIss]

/-- `update_issue` by a citizen is a 403 no-op. -/
theorem update_issue_citizen {now : Nat} {db : Db} {issue_id : Nat} {actor : User}
    {upd : IssueUpdateRequest} {issue : Issue}
    (hIss : findIssue db issue_id = some issue)
    (hrole : actor.role = UserRole.citizen) :
    update_issue now db issue_id actor upd = (db, Except.error UpdateError.notAuthorized) := by
  unfold update_issue
  rw [hIss]
  simp [hrole]

/-- On the success path the issues table is exactly the old one with the
updated row committed. -/
theorem update_issue_success_issues {now : Nat} {db : Db} {issue_id : Nat} {actor : User}
    {upd : IssueUpdateRequest} {issue : Issue}
    (hIss : findIssue db issue_id = some issue)
    (hrole : actor.role ≠ UserRole.citizen) :
    (update_issue now db issue_id actor upd).1.issues =
      setIssue issue_id (apply_issue_update now upd issue) db.issues := by
  have hrole' : ¬((actor.role == UserRole.citizen) = true) := by simpa using hrole
  unfold update_issue
  rw [hIss]
  dsimp only
  rw [if_neg hrole']
  split
  · split
    · exact (award_karma_proj _ _ _).1
    · rfl
  · rfl

/-- After any `update_issue` call the issues table is unchanged or has
exactly the updated row committed. -/
theorem update_issue_issues_cases (now : Nat) (db : Db) (issue_id : Nat) (actor : User)
    (upd : IssueUpdateRequest) :
    (update_issue now db issue_id actor upd).1.issues = db.issues ∨
    ∃ issue, findIssue db issue_id = some issue ∧
      (update_issue now db issue_id actor upd).1.issues =
        setIssue issue_id (apply_issue_update now upd issue) db.issues := by
  cases hIss : findIssue db issue_id with
  | none => left; rw [update_issue_not_found hIss]
  | some issue =>
    by_cases hrole : actor.role = UserRole.citizen
    · left; rw [update_issue_citizen hIss hrole]
    · exact Or.inr ⟨issue, rfl, update_issue_success_issues hIss hrole⟩

/-- On the success path the updated row is what a later lookup returns. -/
theorem update_issue_findIssue_success {now : Nat} {db : Db} {issue_id : Nat} {actor : User}
    {upd : IssueUpdateRequest} {issue : Issue}
    (hIss : findIssue db issue_id = some issue)
    (hrole : actor.role ≠ UserRole.citizen) :
    findIssue (update_issue now db issue_id actor upd).1 issue_id =
      some (apply_issue_update now upd issue) := by
  have hid : (apply_issue_update now upd issue).id = issue_id := by
    rw [apply_issue_update_id]
    exact findIssue_some_id hIss
  show (update_issue now db issue_id actor upd).1.issues.find? (fun i => i.id == issue_id) =
    some (apply_issue_update now upd issue)
  rw [update_issue_success_issues hIss hrole, find_setIssue issue_id _ db.issues hid]
  have : db.issues.find? (fun i => i.id == issue_id) = some issue := hIss
  rw [this]
  rfl

/-- A RESOLVED update is the committed field update plus the audit row,
the reporter notification and the 50-point karma award to the reporter. -/
theorem update_issue_resolved_eq {now : Nat} {db : Db} {issue_id : Nat} {actor : User}
    {upd : IssueUpdateRequest} {issue : Issue}
    (hIss : findIssue db issue_id = some issue)
    (hrole : actor.role ≠ UserRole.citizen)
    (hst : upd.status = some IssueStatus.resolved) :
    (update_issue now db issue_id actor upd).1 =
      (award_karma
        { db with issues := setIssue issue_id (apply_issue_update now upd issue) db.issues,
                  updates := db.updates ++
                    [IssueUpdateRec.mk issue_id actor.id IssueStatus.resolved upd.comment],
                  notifications := db.notifications ++
                    [NotificationRec.mk issue.reporter_id (some issue_id)] }
        issue.reporter_id 50).1 := by
  have hrole' : ¬((actor.role == UserRole.citizen) = true) := by simpa using hrole
  unfold update_issue
  rw [hIss]
  dsimp only
  rw [if_neg hrole']
  rw [hst]
  simp only [Option.isSome_some, Bool.or_true, if_true, Option.getD_some,
    apply_issue_update_reporter_id, beq_self_eq_true]

/-- The recomputed row satisfies the score formula by construction. -/
theorem voted_issue_score (vt : VoteType) (issue : Issue) :
    (voted_issue vt issue).urgency_score =
      (voted_issue vt issue).upvotes * 2 + (voted_issue vt issue).confirmations := by
  cases vt <;> rfl

/-- The recomputed row satisfies the score formula by construction. -/
theorem unvoted_issue_score (vt : VoteType) (issue : Issue) :
    (unvoted_issue vt issue).urgency_score =
      (unvoted_issue vt issue).upvotes * 2 + (unvoted_issue vt issue).confirmations := by
  cases vt <;> rfl

/-- Bumping a tally does not change the row id. -/
theorem voted_issue_id (vt : VoteType) (issue : Issue) :
    (voted_issue vt issue).id = issue.id := by
  cases vt <;> rfl

/-- Decrementing a tally does not change the row id. -/
theorem unvoted_issue_id (vt : VoteType) (issue : Issue) :
    (unvoted_issue vt issue).id = issue.id := by
  cases vt <;> rfl

/-- Removing a vote right after casting it restores the issue row exactly,
provided the starting row satisfied the score formula. -/
theorem unvoted_voted_issue (vt : VoteType) (issue : Issue)
    (hScore : issue.urgency_score = issue.upvotes * 2 + issue.confirmations) :
    unvoted_issue vt (voted_issue vt issue) = issue := by
  cases vt <;>
    (simp [unvoted_issue, voted_issue, unbump_tally, bump_tally]; rw [← hScore])

/-- `vote_on_issue` on a missing issue is a 404 no-op. -/
theorem vote_on_issue_not_found {db : Db} {issue_id user_id : Nat} {vt : VoteType}
    (hIss : findIssue db issue_id = none) :
    vote_on_issue db issue_id user_id vt = (db, Except.error VoteError.issueNotFound) := by
  unfold vote_on_issue
  rw [hIss]

/-- A duplicate `(issue, user, type)` vote is rejected with no change. -/
theorem vote_on_issue_duplicate {db : Db} {issue_id user_id : Nat} {vt : VoteType} {issue : Issue}
    (hIss : findIssue db issue_id = some issue)
    (hDup : (db.votes.find? (voteMatches issue_id user_id vt)).isSome = true) :
    vote_on_issue db issue_id user_id vt = (db, Except.error VoteError.alreadyVoted) := by
  unfold vote_on_issue
  rw [hIss]
  dsimp only
  rw [if_pos hDup]

/-- The success path of `vote_on_issue`: the committed rows and the karma
side-effect. -/
theorem vote_on_issue_success_eq {db : Db} {issue_id user_id : Nat} {vt : VoteType} {issue : Issue}
    (hIss : findIssue db issue_id = some issue)
    (hNoVote : db.votes.find? (voteMatches issue_id user_id vt) = none) :
    vote_on_issue db issue_id user_id vt =
      ((award_karma
          { db with votes := db.votes ++ [IssueVote.mk issue_id user_id vt],
                    issues := setIssue issue_id (voted_issue vt issue) db.issues }
          user_id 1).1,
       Except.ok (voted_issue vt issue).urgency_score) := by
  unfold vote_on_issue
  rw [hIss]
  dsimp only
  rw [hNoVote]
  rfl

/-- `remove_vote` for an absent vote is a 404 no-op. -/
theorem remove_vote_missing {db : Db} {issue_id user_id : Nat} {vt : VoteType}
    (hNoVote : db.votes.find? (voteMatches issue_id user_id vt) = none) :
    remove_vote db issue_id user_id vt = (db, Except.error VoteError.voteNotFound) := by
  unfold remove_vote
  rw [hNoVote]

/-- The success path of `remove_vote`: the committed rows. -/
theorem remove_vote_success_eq {db : Db} {issue_id user_id : Nat} {vt : VoteType}
    {v : IssueVote} {issue : Issue}
    (hVote : db.votes.find? (voteMatches issue_id user_id vt) = some v)
    (hIss : findIssue db issue_id = some issue) :
    remove_vote db issue_id user_id vt =
      ({ db with issues := setIssue issue_id (unvoted_issue vt issue) db.issues,
                 votes := removeFirstVote (voteMatches issue_id user_id vt) db.votes },
       Except.ok (unvoted_issue vt issue).urgency_score) := by
  unfold remove_vote
  rw [hVote, hIss]

/-- On the success path of `vote_on_issue` a later lookup returns the
bumped, recomputed row. -/
theorem vote_on_issue_findIssue_success {db : Db} {issue_id user_id : Nat} {vt : VoteType}
    {issue : Issue}
    (hIss : findIssue db issue_id = some issue)
    (hNoVote : db.votes.find? (voteMatches issue_id user_id vt) = none) :
    findIssue (vote_on_issue db issue_id user_id vt).1 issue_id =
      some (voted_issue vt issue) := by
  rw [vote_on_issue_success_eq hIss hNoVote]
  show (award_karma
      { db with votes := db.votes ++ [IssueVote.mk issue_id user_id vt],
                issues := setIssue issue_id (voted_issue vt issue) db.issues }
      user_id 1).1.issues.find? (fun i => i.id == issue_id) = some (voted_issue vt issue)
  rw [(award_karma_proj _ _ _).1]
  show (setIssue issue_id (voted_issue vt issue) db.issues).find? (fun i => i.id == issue_id) =
    some (voted_issue vt issue)
  rw [find_setIssue issue_id _ db.issues (by rw [voted_issue_id]; exact findIssue_some_id hIss)]
  rw [show db.issues.find? (fun i => i.id == issue_id) = some issue from hIss]
  rfl

/-- On the success path of `remove_vote` a later lookup returns the
decremented, recomputed row. -/
theorem remove_vote_findIssue_success {db : Db} {issue_id user_id : Nat} {vt : VoteType}
    {v : IssueVote} {issue : Issue}
    (hVote : db.votes.find? (voteMatches issue_id user_id vt) = some v)
    (hIss : findIssue db issue_id = some issue) :
    findIssue (remove_vote db issue_id user_id vt).1 issue_id =
      some (unvoted_issue vt issue) := by
  rw [remove_vote_success_eq hVote hIss]
  show (setIssue issue_id (unvoted_issue vt issue) db.issues).find? (fun i => i.id == issue_id) =
    some (unvoted_issue vt issue)
  rw [find_setIssue issue_id _ db.issues (by rw [unvoted_issue_id]; exact findIssue_some_id hIss)]
  rw [show db.issues.find? (fun i => i.id == issue_id) = some issue from hIss]
  rfl

/-! ## Claim theorems -/

/-- C2: for every issue, after every successful vote cast and every
successful vote removal, the issue's `urgency_score` equals
`upvotes*2 + confirmations`. -/
theorem urgency_score_formula_after_vote_ops
    (db db' : Db) (issue_id user_id : Nat) (vt : VoteType) (s : Nat) (i : Issue) :
    (vote_on_issue db issue_id user_id vt = (db', Except.ok s) →
       findIssue db' issue_id = some i →
       i.urgency_score = i.upvotes * 2 + i.confirmations) ∧
    (remove_vote db issue_id user_id vt = (db', Except.ok s) →
       findIssue db' issue_id = some i →
       i.urgency_score = i.upvotes * 2 + i.confirmations) := by
  constructor
  · intro hop hfind
    cases hIss : findIssue db issue_id with
    | none =>
      rw [vote_on_issue_not_found hIss] at hop
      exact absurd (congrArg Prod.snd hop) (by simp)
    | some issue =>
      cases hdup : db.votes.find? (voteMatches issue_id user_id vt) with
      | some v =>
        rw [vote_on_issue_duplicate hIss (by rw [hdup]; rfl)] at hop
        exact absurd (congrArg Prod.snd hop) (by simp)
      | none =>
        have hdb : (vote_on_issue db issue_id user_id vt).1 = db' := congrArg Prod.fst hop
        rw [← hdb, vote_on_issue_findIssue_success hIss hdup] at hfind
        injection hfind with hi
        exact hi ▸ voted_issue_score vt issue
  · intro hop hfind
    cases hVote : db.votes.find? (voteMatches issue_id user_id vt) with
    | none =>
      rw [remove_vote_missing hVote] at hop
      exact absurd (congrArg Prod.snd hop) (by simp)
    | some v =>
      cases hIss : findIssue db issue_id with
      | none =>
        unfold remove_vote at hop
        rw [hVote, hIss] at hop
        exact absurd (congrArg Prod.snd hop) (by simp)
      | some issue =>
        have hdb : (remove_vote db issue_id user_id vt).1 = db' := congrArg Prod.fst hop
        rw [← hdb, remove_vote_findIssue_success hVote hIss] at hfind
        injection hfind with hi
        exact hi ▸ unvoted_issue_score vt issue

/-- Witness for C2: the score formula holds after a concrete cast and
after the concrete removal that follows it. -/
theorem urgency_score_formula_after_vote_ops_witness :
    w2_issue1.urgency_score = w2_issue1.upvotes * 2 + w2_issue1.confirmations ∧
    w2_issue0.urgency_score = w2_issue0.upvotes * 2 + w2_issue0.confirmations :=
  ⟨(urgency_score_formula_after_vote_ops w2_db w2_db1 1 7 .upvote 2 w2_issue1).1
      (by rfl) (by rfl),
   (urgency_score_formula_after_vote_ops w2_db1 w2_db2 1 7 .upvote 0 w2_issue0).2
      (by rfl) (by rfl)⟩

/-- C5: casting a vote of a type already held by the user on that issue
fails with the duplicate-vote error and leaves the store unchanged;
removing an absent vote fails with the vote-not-found error and leaves
the store unchanged. -/
theorem duplicate_and_missing_vote_rejected
    (db : Db) (issue_id user_id : Nat) (vt : VoteType) :
    ((findIssue db issue_id).isSome = true →
       (db.votes.find? (voteMatches issue_id user_id vt)).isSome = true →
       vote_on_issue db issue_id user_id vt = (db, Except.error VoteError.alreadyVoted)) ∧
    (db.votes.find? (voteMatches issue_id user_id vt) = none →
       remove_vote db issue_id user_id vt = (db, Except.error VoteError.voteNotFound)) := by
  constructor
  · intro hsome hdup
    cases hIss : findIssue db issue_id with
    | none => rw [hIss] at hsome; cases hsome
    | some issue => exact vote_on_issue_duplicate hIss hdup
  · exact remove_vote_missing

/-- Witness for C5: a concrete duplicate cast and a concrete removal of a
nonexistent vote are both rejected with the store unchanged. -/
theorem duplicate_and_missing_vote_rejected_witness :
    vote_on_issue w2_db1 1 7 .upvote = (w2_db1, Except.error VoteError.alreadyVoted) ∧
    remove_vote w2_db 1 7 .upvote = (w2_db, Except.error VoteError.voteNotFound) :=
  ⟨(duplicate_and_missing_vote_rejected w2_db1 1 7 .upvote).1 (by rfl) (by rfl),
   (duplicate_and_missing_vote_rejected w2_db 1 7 .upvote).2 (by rfl)⟩

/-- C9: when the Karma Engine cannot find the voter, the cast vote still
succeeds and persists — the vote row, the bumped tally and the recomputed
`urgency_score` are all committed — while the karma award reports failure
(`false`, logged) instead of undoing the vote. -/
theorem vote_persists_when_karma_user_missing
    (db : Db) (issue_id user_id : Nat) (vt : VoteType) (issue : Issue)
    (hIss : findIssue db issue_id = some issue)
    (hNoVote : db.votes.find? (voteMatches issue_id user_id vt) = none)
    (hNoUser : findUser db user_id = none) :
    let db2 : Db := { db with votes := db.votes ++ [IssueVote.mk issue_id user_id vt],
                              issues := setIssue issue_id (voted_issue vt issue) db.issues }
    vote_on_issue db issue_id user_id vt =
      (db2, Except.ok (voted_issue vt issue).urgency_score) ∧
    award_karma db2 user_id 1 = (db2, false) := by
  intro db2
  have hNoUser2 : findUser db2 user_id = none := hNoUser
  constructor
  · rw [vote_on_issue_success_eq hIss hNoVote, award_karma_none hNoUser2]
  · exact award_karma_none hNoUser2

/-- Witness for C9: at a concrete store with no user rows, a cast vote
commits the vote, tally and score while the karma award reports failure. -/
theorem vote_persists_when_karma_user_missing_witness :
    vote_on_issue c9_db 1 7 .upvote = (c9_db_after, Except.ok 2) ∧
    award_karma c9_db_after 7 1 = (c9_db_after, false) :=
  vote_persists_when_karma_user_missing c9_db 1 7 .upvote c3_issue0
    (by rfl) (by rfl) (by rfl)

/-- C10: a successful cast followed by a removal of the same vote type
restores the issue row (tallies and score) and the votes table exactly,
while the voter keeps the +1 karma voting reward — karma is not refunded
on unvote. -/
theorem unvote_restores_issue_and_keeps_karma
    (db : Db) (issue_id user_id : Nat) (vt : VoteType) (issue : Issue) (user : User)
    (hIss : findIssue db issue_id = some issue)
    (hUser : findUser db user_id = some user)
    (hNoVote : db.votes.find? (voteMatches issue_id user_id vt) = none)
    (hScore : issue.urgency_score = issue.upvotes * 2 + issue.confirmations) :
    findIssue (remove_vote (vote_on_issue db issue_id user_id vt).1 issue_id user_id vt).1
        issue_id = some issue ∧
    (remove_vote (vote_on_issue db issue_id user_id vt).1 issue_id user_id vt).1.votes =
        db.votes ∧
    (remove_vote (vote_on_issue db issue_id user_id vt).1 issue_id user_id vt).2 =
        Except.ok issue.urgency_score ∧
    findUser (remove_vote (vote_on_issue db issue_id user_id vt).1 issue_id user_id vt).1
        user_id = some { user with civic_karma := user.civic_karma + 1 } := by
  have hv : voteMatches issue_id user_id vt (IssueVote.mk issue_id user_id vt) = true := by
    simp [voteMatches]
  have hop1 := vote_on_issue_success_eq hIss hNoVote
  rw [hop1]
  dsimp only
  obtain ⟨hu, hi, hvv, -, -, -, -, -⟩ := @award_karma_some_proj
    { db with votes := db.votes ++ [IssueVote.mk issue_id user_id vt],
              issues := setIssue issue_id (voted_issue vt issue) db.issues }
    user_id 1 user
    (show findUser
        { db with votes := db.votes ++ [IssueVote.mk issue_id user_id vt],
                  issues := setIssue issue_id (voted_issue vt issue) db.issues }
        user_id = some user from hUser)
  have hVote1 : (award_karma
      { db with votes := db.votes ++ [IssueVote.mk issue_id user_id vt],
                issues := setIssue issue_id (voted_issue vt issue) db.issues }
      user_id 1).1.votes.find? (voteMatches issue_id user_id vt) =
      some (IssueVote.mk issue_id user_id vt) := by
    rw [hvv]
    show (db.votes ++ [IssueVote.mk issue_id user_id vt]).find?
      (voteMatches issue_id user_id vt) = some (IssueVote.mk issue_id user_id vt)
    rw [find?_append_of_none _ _ _ hNoVote]
    simp [List.find?, hv]
  have hIss1 : findIssue (award_karma
      { db with votes := db.votes ++ [IssueVote.mk issue_id user_id vt],
                issues := setIssue issue_id (voted_issue vt issue) db.issues }
      user_id 1).1 issue_id = some (voted_issue vt issue) := by
    show (award_karma _ user_id 1).1.issues.find? (fun i => i.id == issue_id) = _
    rw [hi]
    show (setIssue issue_id (voted_issue vt issue) db.issues).find? (fun i => i.id == issue_id) = _
    rw [find_setIssue issue_id _ db.issues (by rw [voted_issue_id]; exact findIssue_some_id hIss)]
    rw [show db.issues.find? (fun i => i.id == issue_id) = some issue from hIss]
    rfl
  have hop2 := remove_vote_success_eq hVote1 hIss1
  rw [hop2]
  dsimp only
  rw [unvoted_voted_issue vt issue hScore]
  refine ⟨?_, ?_, rfl, ?_⟩
  · show (setIssue issue_id issue ((award_karma _ user_id 1).1.issues)).find?
      (fun i => i.id == issue_id) = some issue
    rw [hi]
    show (setIssue issue_id issue
      (setIssue issue_id (voted_issue vt issue) db.issues)).find? (fun i => i.id == issue_id) =
      some issue
    rw [setIssue_setIssue issue_id _ _ db.issues
      (by rw [voted_issue_id]; exact findIssue_some_id hIss)]
    rw [setIssue_find_self issue_id issue db.issues hIss]
    exact hIss
  · show removeFirstVote (voteMatches issue_id user_id vt)
      ((award_karma _ user_id 1).1.votes) = db.votes
    rw [hvv]
    show removeFirstVote (voteMatches issue_id user_id vt)
      (db.votes ++ [IssueVote.mk issue_id user_id vt]) = db.votes
    rw [removeFirstVote_append_of_none _ _ _ hNoVote]
    simp [removeFirstVote, hv]
  · show ((award_karma _ user_id 1).1.users).find? (fun u => u.id == user_id) =
      some { user with civic_karma := user.civic_karma + 1 }
    rw [hu]
    show (setUser user_id { user with civic_karma := user.civic_karma + 1 } db.users).find?
      (fun u => u.id == user_id) = some { user with civic_karma := user.civic_karma + 1 }
    rw [find_setUser user_id { user with civic_karma := user.civic_karma + 1 } db.users
      (show ({ user with civic_karma := user.civic_karma + 1 } : User).id = user_id from
        @findUser_some_id db user_id user hUser)]
    rw [show db.users.find? (fun u => u.id == user_id) = some user from hUser]
    rfl

/-- Witness for C10: after a concrete cast-then-remove the issue row and
votes table are back to their initial values and the voter holds exactly
one extra karma point. -/
theorem unvote_restores_issue_and_keeps_karma_witness :
    findIssue w2_db2 1 = some w2_issue0 ∧
    w2_db2.votes = w2_db.votes ∧
    (remove_vote w2_db1 1 7 .upvote).2 = Except.ok 0 ∧
    findUser w2_db2 7 = some { w2_user with civic_karma := w2_user.civic_karma + 1 } :=
  unvote_restores_issue_and_keeps_karma w2_db 1 7 .upvote w2_issue0 w2_user
    (by rfl) (by rfl) (by rfl) (by rfl)

/-- Inserting keeps the list a permutation of the cons. -/
theorem insertSorted_perm (before : Issue → Issue → Bool) (x : Issue) (l : List Issue) :
    List.Perm (insertSorted before x l) (x :: l) := by
  induction l with
  | nil => exact List.Perm.refl _
  | cons y ys ih =>
    unfold insertSorted
    split
    · exact (ih.cons y).trans (List.Perm.swap x y ys)
    · exact List.Perm.refl _

/-- The stable sort permutes its input. -/
theorem sortIssues_perm (before : Issue → Issue → Bool) (l : List Issue) :
    List.Perm (sortIssues before l) l := by
  induction l with
  | nil => exact List.Perm.refl _
  | cons x xs ih => exact (insertSorted_perm before x (sortIssues before xs)).trans (ih.cons x)

/-- Inserting under the strict descending precedence preserves descending
order of the key. -/
theorem insertSorted_pairwise_key (key : Issue → Nat) (x : Issue) (l : List Issue)
    (hl : l.Pairwise (fun a b => key b ≤ key a)) :
    (insertSorted (fun y x => key y > key x) x l).Pairwise (fun a b => key b ≤ key a) := by
  induction l with
  | nil => simp [insertSorted]
  | cons y ys ih =>
    rw [List.pairwise_cons] at hl
    obtain ⟨hy, hys⟩ := hl
    unfold insertSorted
    split_ifs with h
    · have h' : key x < key y := by simpa using h
      rw [List.pairwise_cons]
      refine ⟨?_, ih hys⟩
      intro b hb
      rcases List.mem_cons.mp ((insertSorted_perm _ x ys).mem_iff.mp hb) with rfl | hb'
      · exact Nat.le_of_lt h'
      · exact hy b hb'
    · have h' : key y ≤ key x := by simpa using h
      rw [List.pairwise_cons]
      refine ⟨?_, List.pairwise_cons.mpr ⟨hy, hys⟩⟩
      intro b hb
      rcases List.mem_cons.mp hb with rfl | hb'
      · exact h'
      · exact Nat.le_trans (hy b hb') h'

/-- The stable sort under the strict descending precedence yields a list
descending in the key. -/
theorem sortIssues_pairwise_key (key : Issue → Nat) (l : List Issue) :
    (sortIssues (fun y x => key y > key x) l).Pairwise (fun a b => key b ≤ key a) := by
  induction l with
  | nil => simp [sortIssues]
  | cons x xs ih => exact insertSorted_pairwise_key key x _ ih

/-- C1 (code bug): re-running badge evaluation for a user who already
holds the "First Steps" badge record inserts a second one — the exclusion
check compares the badge key "first_report" against the set of stored
badge names such as "First Steps", which never match, so badge awarding
is not idempotent. -/
theorem check_and_award_badges_reawards_held_badge :
    ((check_and_award_badges c1_db 1).1.badges.filter
        (fun b => b.user_id == 1 && b.badge_name == "First Steps")).length = 2 ∧
    (check_and_award_badges c1_db 1).2 = ["first_report"] :=
  ⟨rfl, rfl⟩

/-- C7 (code bug): `get_available_staff` ignores its department argument —
it returns every active department-staff user for every department id (the
User model has no department column at all) — so `auto_assign_issue`
assigns the globally first active staff user regardless of the issue's
routed department, and sets the status to acknowledged.  Shown both in
general and on a concrete store with two provisioned departments. -/
theorem auto_assign_ignores_department_membership :
    (∀ (db : Db) (d1 d2 : Nat), get_available_staff db d1 = get_available_staff db d2) ∧
    (auto_assign_issue c7_db 1).2 = some 5 ∧
    findIssue (auto_assign_issue c7_db 1).1 1 = some c7_issue1 ∧
    c7_issue1.status = IssueStatus.acknowledged ∧
    c7_issue1.assigned_to_id = some 5 :=
  ⟨fun _ _ _ => rfl, rfl, rfl, rfl, rfl⟩

/-- C8 counterexample: an issue on the equator (latitude 0) has its
coordinates present yet gets no +1 location bonus, and two issues with
equal priority score but different urgency scores keep their query order
instead of being ranked by urgency — the code's queue differs from the
spec-ordered queue. -/
theorem priority_score_and_queue_order_diverge_from_claim :
    calculate_priority_score c8_zero_lat_issue = 1 ∧
    spec_priority_score c8_zero_lat_issue = 2 ∧
    get_priority_queue c8_db none = [c8_issueA, c8_issueB] ∧
    spec_priority_queue c8_db none = [c8_issueB, c8_issueA] := by
  refine ⟨by decide, by decide, by decide, by decide⟩

/-- C8 (amended): the priority score is the tier base (urgent=10, high=7,
medium=4, low=1) plus 3 for a critical category plus 1 exactly when both
coordinates are nonzero (a zero latitude or longitude forfeits the bonus
although coordinates are always present), and the work queue is ordered by
priority score descending only — a stable sort that preserves the
underlying query order on ties; urgency score and creation time are not
consulted. -/
theorem priority_score_formula_and_queue_sorted
    (issue : Issue) (db : Db) (department_id : Option Nat) :
    calculate_priority_score issue =
      priority_scores issue.priority
        + (if critical_categories.contains issue.category then 3 else 0)
        + (if issue.latitude ≠ 0 ∧ issue.longitude ≠ 0 then 1 else 0) ∧
    (get_priority_queue db department_id).Pairwise
      (fun a b => calculate_priority_score b ≤ calculate_priority_score a) ∧
    List.Perm (get_priority_queue db department_id)
      (priority_queue_candidates db department_id) := by
  refine ⟨?_, ?_, ?_⟩
  · unfold calculate_priority_score
    dsimp only
    split_ifs <;> omega
  · exact sortIssues_pairwise_key calculate_priority_score _
  · exact sortIssues_perm _ _

/-- C3 counterexample: from a fresh store an admin resolves issue 1 and
then moves it back to in_progress; the resulting store is reachable, its
issue is no longer RESOLVED, yet `resolved_at` is still set — the claimed
iff fails. -/
theorem resolved_at_persists_after_leaving_resolved :
    ReachableDb c3_db2 ∧ findIssue c3_db2 1 = some c3_issue2 ∧
    c3_issue2.status ≠ IssueStatus.resolved ∧ c3_issue2.resolved_at ≠ none := by
  refine ⟨?_, by decide, by decide, by decide⟩
  exact ReachableDb.step c3_db1 1 adminUser ⟨some .in_progress, none, none, none⟩ 5
    (ReachableDb.step c3_db0 1 adminUser ⟨some .resolved, none, none, none⟩ 3
      (ReachableDb.init c3_db0 (by decide)))

/-- C3 (amended): in every reachable store an issue with status RESOLVED
has `resolved_at` set, and a set `resolved_at` survives every further
update; the converse of the claimed iff fails because `resolved_at` is
never cleared when the status leaves RESOLVED. -/
theorem reachable_resolved_status_implies_resolved_at
    (db : Db) (h : ReachableDb db) :
    (∀ i ∈ db.issues, i.status = IssueStatus.resolved → i.resolved_at ≠ none) ∧
    (∀ (now issue_id : Nat) (actor : User) (upd : IssueUpdateRequest) (i i' : Issue),
        findIssue db issue_id = some i → i.resolved_at ≠ none →
        findIssue (update_issue now db issue_id actor upd).1 issue_id = some i' →
        i'.resolved_at ≠ none) := by
  constructor
  · induction h with
    | init db0 hinit =>
      intro i hi hs
      rcases hinit i hi with ⟨h1, -, -⟩
      rw [h1] at hs
      exact absurd hs (by decide)
    | step db0 issue_id actor upd now hdb ih =>
      intro i hi hs
      rcases update_issue_issues_cases now db0 issue_id actor upd with hcase | ⟨issue, hIss, hcase⟩
      · rw [hcase] at hi
        exact ih i hi hs
      · rw [hcase] at hi
        rcases mem_setIssue hi with rfl | hmem
        · rw [apply_issue_update_resolved_at]
          split_ifs with hcond
          · simp
          · rw [apply_issue_update_status] at hs
            cases hstat : upd.status with
            | none =>
              rw [hstat] at hs
              exact ih issue (findIssue_mem hIss) hs
            | some st =>
              rw [hstat] at hs
              simp only [Option.getD_some] at hs
              subst hs
              rw [hstat] at hcond
              intro hnone
              exact hcond ⟨rfl, hnone⟩
        · exact ih i hmem hs
  · intro now issue_id actor upd i i' hIss hres hIss'
    by_cases hrole : actor.role = UserRole.citizen
    · rw [update_issue_citizen hIss hrole] at hIss'
      dsimp only at hIss'
      rw [hIss] at hIss'
      injection hIss' with h'
      rw [← h']
      exact hres
    · rw [update_issue_findIssue_success hIss hrole] at hIss'
      injection hIss' with h'
      rw [← h', apply_issue_update_resolved_at]
      split_ifs with hcond
      · simp
      · exact hres

/-- Witness for the amended C3 theorem: at the concrete reachable store
`c3_db1` the resolved issue indeed has `resolved_at` set. -/
theorem reachable_resolved_status_implies_resolved_at_witness :
    c3_issue1.resolved_at ≠ none :=
  (reachable_resolved_status_implies_resolved_at c3_db1
      (ReachableDb.step c3_db0 1 adminUser ⟨some .resolved, none, none, none⟩ 3
        (ReachableDb.init c3_db0 (by decide)))).1
    c3_issue1 (by decide) (by decide)

/-- C4 counterexample: moving a fresh issue straight to IN_PROGRESS
leaves `acknowledged_at` unset, and so does the RESOLVED update of the
lifecycle scenario — contrary to the claim, those statuses never stamp
`acknowledged_at`. -/
theorem in_progress_update_does_not_stamp_acknowledged_at :
    findIssue c4_db1 1 = some c4_issue1 ∧
    c4_issue1.status = IssueStatus.in_progress ∧
    c4_issue1.acknowledged_at = none ∧
    findIssue c3_db1 1 = some c3_issue1 ∧
    c3_issue1.acknowledged_at = none := by
  refine ⟨by decide, by decide, by decide, by decide, by decide⟩

/-- C4 (amended): a status update stamps `acknowledged_at` only when the
new status is ACKNOWLEDGED and the field is unset (first time only); an
already-set `acknowledged_at` is never changed; updates to IN_PROGRESS,
RESOLVED or CLOSED leave `acknowledged_at` exactly as it was. -/
theorem acknowledged_at_stamped_only_by_acknowledged_update
    (now : Nat) (db : Db) (issue_id : Nat) (actor : User) (upd : IssueUpdateRequest)
    (issue i' : Issue)
    (hIss : findIssue db issue_id = some issue)
    (hrole : actor.role ≠ UserRole.citizen)
    (hIss' : findIssue (update_issue now db issue_id actor upd).1 issue_id = some i') :
    (upd.status = some IssueStatus.acknowledged → issue.acknowledged_at = none →
        i'.acknowledged_at = some now) ∧
    (issue.acknowledged_at ≠ none → i'.acknowledged_at = issue.acknowledged_at) ∧
    ((upd.status = some IssueStatus.in_progress ∨ upd.status = some IssueStatus.resolved ∨
        upd.status = some IssueStatus.closed) →
      i'.acknowledged_at = issue.acknowledged_at) := by
  rw [update_issue_findIssue_success hIss hrole] at hIss'
  injection hIss' with h'
  subst h'
  refine ⟨?_, ?_, ?_⟩
  · intro h1 h2
    rw [apply_issue_update_acknowledged_at, if_pos ⟨h1, h2⟩]
  · intro hset
    rw [apply_issue_update_acknowledged_at]
    split_ifs with hc
    · exact absurd hc.2 hset
    · rfl
  · intro hst
    rw [apply_issue_update_acknowledged_at]
    split_ifs with hc
    · rcases hst with h | h | h <;> rw [h] at hc <;> exact absurd hc.1 (by decide)
    · rfl

/-- Witness for the amended C4 theorem: a concrete first-time ACKNOWLEDGED
update stamps `acknowledged_at` with the update instant. -/
theorem acknowledged_at_stamped_only_by_acknowledged_update_witness :
    c4_ack_issue.acknowledged_at = some 4 :=
  (acknowledged_at_stamped_only_by_acknowledged_update 4 c3_db0 1 adminUser
      ⟨some .acknowledged, none, none, none⟩ c3_issue0 c4_ack_issue
      (by decide) (by decide) (by decide)).1 rfl rfl

/-- C6 counterexample: resolving the same issue twice pays the reporter
the 50-point resolution bonus twice (karma 0 → 50 → 100); the award is
not guarded by the not-already-resolved condition, so it is not applied
exactly once per issue. -/
theorem resolved_bonus_awarded_on_repeat_resolve :
    findUser c6_db1 2 = some c6_user1 ∧
    findUser c6_db2 2 = some c6_user2 := by
  refine ⟨by decide, by decide⟩

/-- C6 (amended): every status update that sets RESOLVED awards the
issue's reporter exactly 50 karma — including updates to an
already-resolved issue; only the `resolved_at` stamp is guarded by the
not-already-set condition, the bonus is not. -/
theorem resolved_update_awards_reporter_fifty
    (now : Nat) (db : Db) (issue_id : Nat) (actor : User) (upd : IssueUpdateRequest)
    (issue : Issue) (reporter u' : User)
    (hIss : findIssue db issue_id = some issue)
    (hrole : actor.role ≠ UserRole.citizen)
    (hst : upd.status = some IssueStatus.resolved)
    (hrep : findUser db issue.reporter_id = some reporter)
    (hu' : findUser (update_issue now db issue_id actor upd).1 issue.reporter_id = some u') :
    u'.civic_karma = reporter.civic_karma + 50 := by
  rw [update_issue_resolved_eq hIss hrole hst] at hu'
  obtain ⟨hu, -, -, -, -, -, -, -⟩ := @award_karma_some_proj
    { db with issues := setIssue issue_id (apply_issue_update now upd issue) db.issues,
              updates := db.updates ++
                [IssueUpdateRec.mk issue_id actor.id IssueStatus.resolved upd.comment],
              notifications := db.notifications ++
                [NotificationRec.mk issue.reporter_id (some issue_id)] }
    issue.reporter_id 50 reporter
    (show findUser
        { db with issues := setIssue issue_id (apply_issue_update now upd issue) db.issues,
                  updates := db.updates ++
                    [IssueUpdateRec.mk issue_id actor.id IssueStatus.resolved upd.comment],
                  notifications := db.notifications ++
                    [NotificationRec.mk issue.reporter_id (some issue_id)] }
        issue.reporter_id = some reporter from hrep)
  have hfound : findUser (award_karma
      { db with issues := setIssue issue_id (apply_issue_update now upd issue) db.issues,
                updates := db.updates ++
                  [IssueUpdateRec.mk issue_id actor.id IssueStatus.resolved upd.comment],
                notifications := db.notifications ++
                  [NotificationRec.mk issue.reporter_id (some issue_id)] }
      issue.reporter_id 50).1 issue.reporter_id =
      some { reporter with civic_karma := reporter.civic_karma + 50 } := by
    show (award_karma _ issue.reporter_id 50).1.users.find?
      (fun u => u.id == issue.reporter_id) = _
    rw [hu]
    show (setUser issue.reporter_id { reporter with civic_karma := reporter.civic_karma + 50 }
      db.users).find? (fun u => u.id == issue.reporter_id) = _
    rw [find_setUser issue.reporter_id
      { reporter with civic_karma := reporter.civic_karma + 50 } db.users
      (show ({ reporter with civic_karma := reporter.civic_karma + 50 } : User).id =
        issue.reporter_id from @findUser_some_id db issue.reporter_id reporter hrep)]
    rw [show db.users.find? (fun u => u.id == issue.reporter_id) = some reporter from hrep]
    rfl
  rw [hfound] at hu'
  injection hu' with h
  rw [← h]

/-- Witness for the amended C6 theorem: the concrete first RESOLVED update
raises the reporter's karma from 0 to exactly 50. -/
theorem resolved_update_awards_reporter_fifty_witness :
    c6_user1.civic_karma = c6_reporter.civic_karma + 50 :=
  resolved_update_awards_reporter_fifty 3 c6_db0 1 adminUser
    ⟨some .resolved, none, none, none⟩ c6_issue0 c6_reporter c6_user1
    (by decide) (by decide) (by decide) (by decide) (by decide)

end CivicSense
